import Mathlib

/-!
Shallow embedding of the FloorPlanGenerator core
(src/Floor Plan Generator/src/components/FloorPlanGenerator.tsx and
src/Floor Plan Generator/src/types.ts).

JavaScript numbers that hold dimensions and coordinates are modelled as
`Int` (the UI feeds integer plot units; subtraction may go negative and
the code performs no clamping).  `Math.floor (w / 4)` on an integer `w`
is floor division, `Int.fdiv w 4`.  JavaScript `Number.prototype.toString`
on a natural number is modelled by `natToString`, a base-10 printer
mirroring the structure of the runtime's own printer.  TypeScript
optional fields become `Option`; a record lookup that can miss
(`VASTU_RULES[type]`) returns `Option VastuRule`, `none` standing for
`undefined`.
-/

/-- Mirrors the `{ length, width }` size records of the source. -/
structure Size where
  length : Int
  width : Int
deriving DecidableEq

/-- Mirrors `{ x, y }` position records. -/
structure Position where
  x : Int
  y : Int
deriving DecidableEq

/-- Mirrors `PlotDimensions` from types.ts. -/
structure PlotDimensions where
  length : Int
  width : Int
deriving DecidableEq

/-- Mirrors the optional `preferences` record of types.ts: each of the four
flags is itself optional, `none` standing for an absent field. -/
structure RoomPreferences where
  hasAttachedWashroom : Option Bool := none
  isOpen : Option Bool := none
  isInside : Option Bool := none
  isCombined : Option Bool := none
deriving DecidableEq

/-- Mirrors `Room` from types.ts; `preferences` is optional on the record. -/
structure Room where
  id : String
  type : String
  size : Size
  position : Position
  direction : String
  preferences : Option RoomPreferences := none
deriving DecidableEq

/-- Mirrors `VastuRule` from types.ts. -/
structure VastuRule where
  direction : String
  defaultSize : Size
  description : String
  preferences : Option RoomPreferences := none
deriving DecidableEq

/-- The draft object held in the `newRoom` state hook: all four preference
flags are present (the initial literal supplies them all and every update
spreads the previous record). -/
structure DraftPreferences where
  hasAttachedWashroom : Bool
  isOpen : Bool
  isInside : Bool
  isCombined : Bool
deriving DecidableEq

/-- Mirrors the `newRoom` draft state: `{ type, length, width, preferences }`. -/
structure NewRoom where
  type : String
  length : Int
  width : Int
  preferences : DraftPreferences
deriving DecidableEq

/-- The catalog entry `VASTU_RULES.master_bedroom`. -/
def master_bedroom_rule : VastuRule where
  direction := "southwest"
  defaultSize := { length := 12, width := 15 }
  description := "Master bedroom should be in the Southwest direction for stability and peace."
  preferences := some { hasAttachedWashroom := some true }

/-- The catalog entry `VASTU_RULES.bedroom`. -/
def bedroom_rule : VastuRule where
  direction := "west"
  defaultSize := { length := 10, width := 12 }
  description := "Additional bedrooms should be in the West direction."
  preferences := some { hasAttachedWashroom := some false }

/-- The catalog entry `VASTU_RULES.kitchen`. -/
def kitchen_rule : VastuRule where
  direction := "southeast"
  defaultSize := { length := 8, width := 10 }
  description := "Kitchen should be in the Southeast direction for positive energy while cooking."
  preferences := some { isOpen := some false }

/-- The catalog entry `VASTU_RULES.pooja_room`. -/
def pooja_room_rule : VastuRule where
  direction := "northeast"
  defaultSize := { length := 6, width := 6 }
  description := "Pooja room should be in the Northeast direction for spiritual growth."

/-- The catalog entry `VASTU_RULES.bathroom`. -/
def bathroom_rule : VastuRule where
  direction := "northwest"
  defaultSize := { length := 5, width := 5 }
  description := "Bathroom should be in the Northwest direction."

/-- The catalog entry `VASTU_RULES.living_room`. -/
def living_room_rule : VastuRule where
  direction := "north"
  defaultSize := { length := 15, width := 12 }
  description := "Living room should be in the North or East direction for prosperity."
  preferences := some { isCombined := some false }

/-- The catalog entry `VASTU_RULES.dining_room`. -/
def dining_room_rule : VastuRule where
  direction := "east"
  defaultSize := { length := 10, width := 12 }
  description := "Dining room should be in the East direction for harmonious meals."
  preferences := some { isCombined := some false }

/-- The catalog entry `VASTU_RULES.staircase`. -/
def staircase_rule : VastuRule where
  direction := "south"
  defaultSize := { length := 6, width := 10 }
  description := "Staircase should be in the South or West direction for positive energy flow."
  preferences := some { isInside := some true }

/-- The catalog entry `VASTU_RULES.common_area`. -/
def common_area_rule : VastuRule where
  direction := "north"
  defaultSize := { length := 20, width := 15 }
  description := "Combined living and dining area should be in the North direction."

/-- The record `VASTU_RULES : Record<string, VastuRule>` as a lookup
function; an index miss (`VASTU_RULES[t]` being `undefined`) is `none`. -/
def VASTU_RULES (type : String) : Option VastuRule :=
  if type = "master_bedroom" then some master_bedroom_rule
  else if type = "bedroom" then some bedroom_rule
  else if type = "kitchen" then some kitchen_rule
  else if type = "pooja_room" then some pooja_room_rule
  else if type = "bathroom" then some bathroom_rule
  else if type = "living_room" then some living_room_rule
  else if type = "dining_room" then some dining_room_rule
  else if type = "staircase" then some staircase_rule
  else if type = "common_area" then some common_area_rule
  else none

/-- The placement function `getPositionForDirection` (lines 86-113 of the
component): a switch on the direction string; `Math.floor (width / 4)` is
`Int.fdiv width 4`; the default case returns the origin. -/
def getPositionForDirection (direction : String) (plotDimensions : PlotDimensions)
    (roomSize : Size) : Position :=
  let length := plotDimensions.length
  let width := plotDimensions.width
  if direction = "northeast" then { x := 0, y := 0 }
  else if direction = "north" then { x := Int.fdiv width 4, y := 0 }
  else if direction = "northwest" then { x := width - roomSize.width, y := 0 }
  else if direction = "east" then { x := 0, y := Int.fdiv length 4 }
  else if direction = "southeast" then { x := 0, y := length - roomSize.length }
  else if direction = "south" then { x := Int.fdiv width 4, y := length - roomSize.length }
  else if direction = "southwest" then { x := width - roomSize.width, y := length - roomSize.length }
  else if direction = "west" then { x := width - roomSize.width, y := Int.fdiv length 4 }
  else { x := 0, y := 0 }

/-- Fuel-driven base-10 digit accumulator, the shape of the runtime's
numeral printer: each step prepends the digit character of `n % 10` and
recurses on `n / 10` until that quotient is zero. -/
def toDecimalCore : Nat → Nat → List Char → List Char
  | 0, _, ds => ds
  | fuel + 1, n, ds =>
    let d := Char.ofNat (48 + n % 10)
    if n / 10 = 0 then d :: ds
    else toDecimalCore fuel (n / 10) (d :: ds)

/-- JavaScript `Number.prototype.toString()` on a natural number: the usual
base-10 decimal rendering. -/
def natToString (n : Nat) : String :=
  ⟨toDecimalCore (n + 1) n []⟩

/-- The draft's preference record as stored onto a created `Room`
(`preferences: newRoom.preferences`): all four flags present. -/
def draftToRoomPrefs (p : DraftPreferences) : RoomPreferences where
  hasAttachedWashroom := some p.hasAttachedWashroom
  isOpen := some p.isOpen
  isInside := some p.isInside
  isCombined := some p.isCombined

/-- `addRoom` (lines 136-183), acting on the rooms list given the current
plot dimensions and draft.  A lookup miss on `VASTU_RULES[newRoom.type]`
(which would throw at `vastuRule.direction` in the source) is `none`. -/
def addRoom (plotDimensions : PlotDimensions) (newRoom : NewRoom)
    (rooms : List Room) : Option (List Room) :=
  let id := natToString (rooms.length + 1)
  match VASTU_RULES newRoom.type with
  | none => none
  | some vastuRule =>
    let position := getPositionForDirection vastuRule.direction plotDimensions
      { length := newRoom.length, width := newRoom.width }
    let room : Room :=
      { id := id
        type := newRoom.type
        size := { length := newRoom.length, width := newRoom.width }
        position := position
        direction := vastuRule.direction
        preferences := some (draftToRoomPrefs newRoom.preferences) }
    if newRoom.type == "living_room" && newRoom.preferences.isCombined then
      let combinedRoom : Room :=
        { id := id
          type := "common_area"
          size := common_area_rule.defaultSize
          position := position
          direction := "north"
          preferences := some { isCombined := some true } }
      some (rooms ++ [combinedRoom])
    else if newRoom.preferences.hasAttachedWashroom then
      let washroom : Room :=
        { id := id ++ "-washroom"
          type := "bathroom"
          size := bathroom_rule.defaultSize
          position := { x := position.x + newRoom.width, y := position.y }
          direction := "northwest"
          preferences := none }
      some (rooms ++ [room, washroom])
    else
      some (rooms ++ [room])

/-- JavaScript `s.startsWith(pre)`: the characters of `pre` are a prefix of
the characters of `s`. -/
def strStartsWith (s pre : String) : Bool :=
  pre.data.isPrefixOf s.data

/-- `removeRoom` (lines 185-187): keep exactly the rooms whose id does not
start with the given id string. -/
def removeRoom (id : String) (rooms : List Room) : List Room :=
  rooms.filter fun room => !(strStartsWith room.id id)

/-- `handleRoomTypeChange` (lines 189-202): rebuild the draft wholesale from
the selected type's rule; `rule.preferences?.flag ?? default` is the
`Option.bind` chain with `getD`. -/
def handleRoomTypeChange (type : String) : Option NewRoom :=
  match VASTU_RULES type with
  | none => none
  | some vastuRule =>
    some
      { type := type
        length := vastuRule.defaultSize.length
        width := vastuRule.defaultSize.width
        preferences :=
          { hasAttachedWashroom :=
              ((vastuRule.preferences.bind fun p => p.hasAttachedWashroom).getD false)
            isOpen := ((vastuRule.preferences.bind fun p => p.isOpen).getD false)
            isInside := ((vastuRule.preferences.bind fun p => p.isInside).getD true)
            isCombined := ((vastuRule.preferences.bind fun p => p.isCombined).getD false) } }

/-- The whole component state: plot dimensions, placed rooms, and the draft. -/
structure State where
  plotDimensions : PlotDimensions
  rooms : List Room
  newRoom : NewRoom
deriving DecidableEq

/-- The initial hook values (lines 116-134): plot 50 by 30, no rooms, draft
master_bedroom at its default size with its declared washroom preference. -/
def initialState : State where
  plotDimensions := { length := 50, width := 30 }
  rooms := []
  newRoom :=
    { type := "master_bedroom"
      length := master_bedroom_rule.defaultSize.length
      width := master_bedroom_rule.defaultSize.width
      preferences :=
        { hasAttachedWashroom := true
          isOpen := false
          isInside := true
          isCombined := false } }

/-- `setPlotDimensions` as invoked by the two plot inputs: replaces the plot
record wholesale, touching nothing else. -/
def setPlotDimensions (next : PlotDimensions) (st : State) : State :=
  { st with plotDimensions := next }

/-- `addRoom` lifted to the whole state (the `setRooms` call). -/
def addRoomState (st : State) : Option State :=
  match addRoom st.plotDimensions st.newRoom st.rooms with
  | none => none
  | some rs => some { st with rooms := rs }

/-- `removeRoom` lifted to the whole state. -/
def removeRoomState (id : String) (st : State) : State :=
  { st with rooms := removeRoom id st.rooms }

/-- `handleRoomTypeChange` lifted to the whole state (the `setNewRoom` call). -/
def handleRoomTypeChangeState (type : String) (st : State) : Option State :=
  match handleRoomTypeChange type with
  | none => none
  | some d => some { st with newRoom := d }

/-- The option values of the type selector: every catalog key except
`common_area` (line 263 filters it out). -/
def selectorTypes : List String :=
  ["master_bedroom", "bedroom", "kitchen", "pooja_room", "bathroom",
   "living_room", "dining_room", "staircase"]

/-- The attached-washroom checkbox is rendered only when
`VASTU_RULES[type].preferences?.hasAttachedWashroom !== undefined`
(line 291). -/
def washroomCheckboxShown (type : String) : Prop :=
  ((VASTU_RULES type).bind fun r => r.preferences).bind
    (fun p => p.hasAttachedWashroom) ≠ none

/-- The open-layout checkbox is rendered only when
`VASTU_RULES[type].preferences?.isOpen !== undefined` (line 307). -/
def openCheckboxShown (type : String) : Prop :=
  ((VASTU_RULES type).bind fun r => r.preferences).bind
    (fun p => p.isOpen) ≠ none

/-- The inside-placement checkbox is rendered only when
`VASTU_RULES[type].preferences?.isInside !== undefined` (line 323). -/
def insideCheckboxShown (type : String) : Prop :=
  ((VASTU_RULES type).bind fun r => r.preferences).bind
    (fun p => p.isInside) ≠ none

/-- States reachable through the component's event handlers, starting from
the initial hook values: the two plot inputs, the type selector (whose
options exclude `common_area`), the two draft size inputs, the four
preference checkboxes (each only when the source renders it), the
Add Room button (when the catalog lookup succeeds, as it must for the
source not to throw), and the per-room Remove button. -/
inductive Reachable : State → Prop where
  | init : Reachable initialState
  | setPlotLength (st : State) (v : Int) : Reachable st →
      Reachable { st with plotDimensions := { st.plotDimensions with length := v } }
  | setPlotWidth (st : State) (v : Int) : Reachable st →
      Reachable { st with plotDimensions := { st.plotDimensions with width := v } }
  | selectType (st st' : State) (t : String) : Reachable st → t ∈ selectorTypes →
      handleRoomTypeChangeState t st = some st' → Reachable st'
  | setDraftLength (st : State) (v : Int) : Reachable st →
      Reachable { st with newRoom := { st.newRoom with length := v } }
  | setDraftWidth (st : State) (v : Int) : Reachable st →
      Reachable { st with newRoom := { st.newRoom with width := v } }
  | toggleWashroom (st : State) (b : Bool) : Reachable st →
      washroomCheckboxShown st.newRoom.type →
      Reachable { st with newRoom := { st.newRoom with
        preferences := { st.newRoom.preferences with hasAttachedWashroom := b } } }
  | toggleOpen (st : State) (b : Bool) : Reachable st →
      openCheckboxShown st.newRoom.type →
      Reachable { st with newRoom := { st.newRoom with
        preferences := { st.newRoom.preferences with isOpen := b } } }
  | toggleInside (st : State) (b : Bool) : Reachable st →
      insideCheckboxShown st.newRoom.type →
      Reachable { st with newRoom := { st.newRoom with
        preferences := { st.newRoom.preferences with isInside := b } } }
  | toggleCombined (st : State) (b : Bool) : Reachable st →
      (st.newRoom.type = "living_room" ∨ st.newRoom.type = "dining_room") →
      Reachable { st with newRoom := { st.newRoom with
        preferences := { st.newRoom.preferences with isCombined := b } } }
  | addR (st st' : State) : Reachable st → addRoomState st = some st' → Reachable st'
  | removeR (st : State) (id : String) : Reachable st → Reachable (removeRoomState id st)

/-- Append-structured form of the decimal rendering, convenient for
induction: most significant digits first. -/
def decRepr (n : Nat) : List Char :=
  if h : n < 10 then [Char.ofNat (48 + n)]
  else decRepr (n / 10) ++ [Char.ofNat (48 + n % 10)]
termination_by n
decreasing_by exact Nat.div_lt_self (by omega) (by omega)

/-- Base-10 value of a digit string, threaded through an accumulator. -/
def decVal (a : Nat) (l : List Char) : Nat :=
  l.foldl (fun x c => 10 * x + (c.toNat - 48)) a

/-- Id discipline of add-only histories: every room id is the decimal
rendering of some index between 1 and the current room count, possibly
carrying the washroom suffix, and the ids are pairwise distinct. -/
def goodIds (rooms : List Room) : Prop :=
  (∀ r ∈ rooms, ∃ k, 1 ≤ k ∧ k ≤ rooms.length ∧
    (r.id = natToString k ∨ r.id = natToString k ++ "-washroom")) ∧
  rooms.Pairwise fun a b => a.id ≠ b.id

/-- A history made only of `addRoom` clicks, each performed under whatever
plot dimensions and draft the user had configured at that moment. -/
def runAdds : List (PlotDimensions × NewRoom) → List Room → Option (List Room)
  | [], rooms => some rooms
  | step :: rest, rooms =>
    match addRoom step.1 step.2 rooms with
    | none => none
    | some rs => runAdds rest rs

/-- The state after selecting dining_room in the type selector. -/
def diningDraftState : State where
  plotDimensions := { length := 50, width := 30 }
  rooms := []
  newRoom :=
    { type := "dining_room", length := 10, width := 12,
      preferences := ⟨false, false, true, false⟩ }

/-- The state after additionally ticking the combined checkbox. -/
def diningCombinedState : State where
  plotDimensions := { length := 50, width := 30 }
  rooms := []
  newRoom :=
    { type := "dining_room", length := 10, width := 12,
      preferences := ⟨false, false, true, true⟩ }

/-- The room assigned id 1 in the collision trace. -/
def collisionRoom1 : Room where
  id := "1"
  type := "master_bedroom"
  size := { length := 12, width := 15 }
  position := { x := 15, y := 38 }
  direction := "southwest"
  preferences := some ⟨some false, some false, some true, some false⟩

/-- First room of the colliding pair: added as room 2 of a two-room
registry, then orphaned by removing room 1. -/
def collisionRoomA : Room where
  id := "2"
  type := "master_bedroom"
  size := { length := 12, width := 15 }
  position := { x := 15, y := 38 }
  direction := "southwest"
  preferences := some ⟨some false, some false, some true, some false⟩

/-- Second room of the colliding pair: added when the registry again held
only one room, so it is also assigned id 2. -/
def collisionRoomB : Room where
  id := "2"
  type := "master_bedroom"
  size := { length := 13, width := 15 }
  position := { x := 15, y := 37 }
  direction := "southwest"
  preferences := some ⟨some false, some false, some true, some false⟩

/-- Collision trace, step 1: the washroom checkbox is unticked. -/
def c4StateA : State where
  plotDimensions := { length := 50, width := 30 }
  rooms := []
  newRoom :=
    { type := "master_bedroom", length := 12, width := 15,
      preferences := ⟨false, false, true, false⟩ }

/-- Collision trace, step 2: one room added. -/
def c4StateB : State where
  plotDimensions := { length := 50, width := 30 }
  rooms := [collisionRoom1]
  newRoom :=
    { type := "master_bedroom", length := 12, width := 15,
      preferences := ⟨false, false, true, false⟩ }

/-- Collision trace, step 3: a second room added, assigned id 2. -/
def c4StateC : State where
  plotDimensions := { length := 50, width := 30 }
  rooms := [collisionRoom1, collisionRoomA]
  newRoom :=
    { type := "master_bedroom", length := 12, width := 15,
      preferences := ⟨false, false, true, false⟩ }

/-- Collision trace, step 4: room 1 removed, leaving only room 2. -/
def c4StateD : State where
  plotDimensions := { length := 50, width := 30 }
  rooms := [collisionRoomA]
  newRoom :=
    { type := "master_bedroom", length := 12, width := 15,
      preferences := ⟨false, false, true, false⟩ }

/-- Collision trace, step 5: the draft length is changed to 13. -/
def c4StateE : State where
  plotDimensions := { length := 50, width := 30 }
  rooms := [collisionRoomA]
  newRoom :=
    { type := "master_bedroom", length := 13, width := 15,
      preferences := ⟨false, false, true, false⟩ }

/-- The reachable state holding both colliding rooms. -/
def collisionState : State where
  plotDimensions := { length := 50, width := 30 }
  rooms := [collisionRoomA, collisionRoomB]
  newRoom :=
    { type := "master_bedroom", length := 13, width := 15,
      preferences := ⟨false, false, true, false⟩ }

theorem decRepr_lt (n : Nat) (h : n < 10) : decRepr n = [Char.ofNat (48 + n)] := by
  conv_lhs => rw [decRepr]
  simp [h]

theorem decRepr_ge (n : Nat) (h : ¬ n < 10) :
    decRepr n = decRepr (n / 10) ++ [Char.ofNat (48 + n % 10)] := by
  conv_lhs => rw [decRepr]
  simp [h]

theorem toDecimalCore_eq (fuel : Nat) : ∀ (n : Nat) (ds : List Char), n < fuel →
    toDecimalCore fuel n ds = decRepr n ++ ds := by
  induction fuel with
  | zero => intro n ds h; omega
  | succ f ih =>
    intro n ds h
    by_cases h10 : n / 10 = 0
    · have hn : n < 10 := by omega
      simp only [toDecimalCore, if_pos h10]
      rw [decRepr_lt n hn, Nat.mod_eq_of_lt hn]
      rfl
    · simp only [toDecimalCore, if_neg h10]
      rw [ih (n / 10) _ (by omega), decRepr_ge n (by omega)]
      simp

theorem natToString_eq (n : Nat) : natToString n = ⟨decRepr n⟩ := by
  rw [natToString, toDecimalCore_eq (n + 1) n [] (by omega), List.append_nil]

theorem decVal_append (a : Nat) (l₁ l₂ : List Char) :
    decVal a (l₁ ++ l₂) = decVal (decVal a l₁) l₂ := by
  simp [decVal, List.foldl_append]

theorem char_toNat_digit (d : Nat) (h : d < 10) : (Char.ofNat (48 + d)).toNat = 48 + d := by
  interval_cases d <;> decide

theorem decVal_decRepr (n : Nat) : decVal 0 (decRepr n) = n := by
  induction n using Nat.strong_induction_on with
  | _ n ih =>
    by_cases h : n < 10
    · rw [decRepr_lt n h]
      simp [decVal, char_toNat_digit n h]
    · rw [decRepr_ge n h, decVal_append, ih (n / 10) (Nat.div_lt_self (by omega) (by omega))]
      simp only [decVal, List.foldl_cons, List.foldl_nil]
      rw [char_toNat_digit (n % 10) (Nat.mod_lt _ (by omega))]
      omega

theorem decRepr_inj {m n : Nat} (h : decRepr m = decRepr n) : m = n := by
  rw [← decVal_decRepr m, ← decVal_decRepr n, h]

theorem natToString_inj {m n : Nat} (h : natToString m = natToString n) : m = n := by
  rw [natToString_eq, natToString_eq] at h
  exact decRepr_inj (congrArg String.data h)

theorem decRepr_digits (n : Nat) : ∀ c ∈ decRepr n, 48 ≤ c.toNat ∧ c.toNat ≤ 57 := by
  induction n using Nat.strong_induction_on with
  | _ n ih =>
    intro c hc
    by_cases h : n < 10
    · rw [decRepr_lt n h] at hc
      rw [List.mem_singleton] at hc
      subst hc
      rw [char_toNat_digit n h]
      omega
    · rw [decRepr_ge n h] at hc
      rcases List.mem_append.1 hc with h1 | h2
      · exact ih (n / 10) (Nat.div_lt_self (by omega) (by omega)) c h1
      · rw [List.mem_singleton] at h2
        subst h2
        rw [char_toNat_digit (n % 10) (Nat.mod_lt _ (by omega))]
        omega

theorem string_data_append (s t : String) : (s ++ t).data = s.data ++ t.data := by
  cases s
  cases t
  rfl

theorem natToString_ne_append_washroom (j k : Nat) :
    natToString j ≠ natToString k ++ "-washroom" := by
  intro h
  have hd : decRepr j = decRepr k ++ "-washroom".data := by
    have := congrArg String.data h
    rwa [natToString_eq, natToString_eq, string_data_append] at this
  have hm : '-' ∈ decRepr j := by
    rw [hd]
    exact List.mem_append_right _ (by decide)
  have h48 := (decRepr_digits j '-' hm).1
  have h45 : ('-').toNat = 45 := by decide
  omega

theorem natToString_washroom_inj {m n : Nat}
    (h : natToString m ++ "-washroom" = natToString n ++ "-washroom") : m = n := by
  have hd := congrArg String.data h
  rw [string_data_append, string_data_append, natToString_eq, natToString_eq] at hd
  exact decRepr_inj (List.append_cancel_right hd)

theorem goodIds_nil : goodIds [] := by
  constructor
  · intro r hr
    exact absurd hr (List.not_mem_nil r)
  · exact List.Pairwise.nil

theorem goodIds_append_one (rooms : List Room) (r : Room)
    (hr : r.id = natToString (rooms.length + 1)) (h : goodIds rooms) :
    goodIds (rooms ++ [r]) := by
  obtain ⟨hmem, hpw⟩ := h
  constructor
  · intro x hx
    rcases List.mem_append.1 hx with hx | hx
    · obtain ⟨k, hk1, hk2, hor⟩ := hmem x hx
      exact ⟨k, hk1, by simp; omega, hor⟩
    · rw [List.mem_singleton] at hx
      subst hx
      exact ⟨rooms.length + 1, by omega, by simp, Or.inl hr⟩
  · rw [List.pairwise_append]
    refine ⟨hpw, List.pairwise_singleton _ _, ?_⟩
    intro a ha b hb
    rw [List.mem_singleton] at hb
    subst hb
    obtain ⟨k, hk1, hk2, hor⟩ := hmem a ha
    rcases hor with hid | hid
    · rw [hid, hr]
      intro heq
      have := natToString_inj heq
      omega
    · rw [hid, hr]
      intro heq
      exact natToString_ne_append_washroom (rooms.length + 1) k heq.symm

theorem goodIds_append_two (rooms : List Room) (a b : Room)
    (ha : a.id = natToString (rooms.length + 1))
    (hb : b.id = natToString (rooms.length + 1) ++ "-washroom")
    (h : goodIds rooms) : goodIds (rooms ++ [a, b]) := by
  obtain ⟨hmem, hpw⟩ := h
  constructor
  · intro x hx
    rcases List.mem_append.1 hx with hx | hx
    · obtain ⟨k, hk1, hk2, hor⟩ := hmem x hx
      exact ⟨k, hk1, by simp; omega, hor⟩
    · rcases List.mem_cons.1 hx with hx | hx
      · subst hx
        exact ⟨rooms.length + 1, by omega, by simp, Or.inl ha⟩
      · rw [List.mem_singleton] at hx
        subst hx
        exact ⟨rooms.length + 1, by omega, by simp, Or.inr hb⟩
  · rw [List.pairwise_append]
    refine ⟨hpw, ?_, ?_⟩
    · refine List.pairwise_cons.2 ⟨?_, List.pairwise_singleton _ _⟩
      intro x hx
      rw [List.mem_singleton] at hx
      subst hx
      rw [ha, hb]
      exact natToString_ne_append_washroom (rooms.length + 1) (rooms.length + 1)
    · intro x hx y hy
      obtain ⟨k, hk1, hk2, hor⟩ := hmem x hx
      rcases List.mem_cons.1 hy with hy | hy
      · subst hy
        rcases hor with hid | hid
        · rw [hid, ha]
          intro heq
          have := natToString_inj heq
          omega
        · rw [hid, ha]
          intro heq
          exact natToString_ne_append_washroom (rooms.length + 1) k heq.symm
      · rw [List.mem_singleton] at hy
        subst hy
        rcases hor with hid | hid
        · rw [hid, hb]
          exact natToString_ne_append_washroom k (rooms.length + 1)
        · rw [hid, hb]
          intro heq
          have := natToString_washroom_inj heq
          omega

theorem addRoom_goodIds (plot : PlotDimensions) (d : NewRoom)
    (rooms rooms' : List Room) (hg : goodIds rooms)
    (h : addRoom plot d rooms = some rooms') : goodIds rooms' := by
  rcases hv : VASTU_RULES d.type with _ | rule
  · simp only [addRoom, hv] at h
    exact absurd h (by simp)
  · simp only [addRoom, hv] at h
    by_cases hc : (d.type == "living_room" && d.preferences.isCombined) = true
    · rw [if_pos hc] at h
      obtain rfl := (Option.some.inj h).symm
      exact goodIds_append_one rooms _ rfl hg
    · rw [if_neg hc] at h
      by_cases hw : d.preferences.hasAttachedWashroom = true
      · rw [if_pos hw] at h
        obtain rfl := (Option.some.inj h).symm
        exact goodIds_append_two rooms _ _ rfl rfl hg
      · rw [if_neg hw] at h
        obtain rfl := (Option.some.inj h).symm
        exact goodIds_append_one rooms _ rfl hg

theorem runAdds_goodIds : ∀ (steps : List (PlotDimensions × NewRoom))
    (rooms rooms' : List Room), goodIds rooms →
    runAdds steps rooms = some rooms' → goodIds rooms' := by
  intro steps
  induction steps with
  | nil =>
    intro rooms rooms' hg h
    obtain rfl := Option.some.inj h
    exact hg
  | cons step rest ih =>
    intro rooms rooms' hg h
    rcases ha : addRoom step.1 step.2 rooms with _ | rs
    · rw [runAdds, ha] at h
      exact absurd h (by simp)
    · rw [runAdds, ha] at h
      exact ih rs rooms' (addRoom_goodIds step.1 step.2 rooms rs hg ha) h

/-- Through the UI, a draft of type dining_room can never carry the
attached-washroom flag: the type selector resets it to the rule default
(absent, hence false) and the washroom checkbox is not rendered for
dining_room. -/
theorem dining_no_washroom (st : State) (h : Reachable st) :
    st.newRoom.type = "dining_room" →
    st.newRoom.preferences.hasAttachedWashroom = false := by
  induction h with
  | init => exact fun hty => absurd hty (by decide)
  | setPlotLength st v hr ih => exact ih
  | setPlotWidth st v hr ih => exact ih
  | selectType st st' t hr hmem heq ih =>
    intro hty
    rcases hrv : VASTU_RULES t with _ | rule
    · simp only [handleRoomTypeChangeState, handleRoomTypeChange, hrv] at heq
      exact absurd heq (by simp)
    · simp only [handleRoomTypeChangeState, handleRoomTypeChange, hrv,
        Option.some.injEq] at heq
      subst heq
      have htyd : t = "dining_room" := hty
      subst htyd
      have hrule : rule = dining_room_rule := Option.some.inj (hrv.symm.trans (by rfl))
      subst hrule
      rfl
  | setDraftLength st v hr ih => exact ih
  | setDraftWidth st v hr ih => exact ih
  | toggleWashroom st b hr hshown ih =>
    intro hty
    have hty' : st.newRoom.type = "dining_room" := hty
    rw [hty'] at hshown
    exact absurd hshown (by unfold washroomCheckboxShown; decide)
  | toggleOpen st b hr hshown ih => exact ih
  | toggleInside st b hr hshown ih => exact ih
  | toggleCombined st b hr hd ih => exact ih
  | addR st st' hr heq ih =>
    rcases ha : addRoom st.plotDimensions st.newRoom st.rooms with _ | rs
    · simp only [addRoomState, ha] at heq
      exact absurd heq (by simp)
    · simp only [addRoomState, ha, Option.some.injEq] at heq
      subst heq
      exact ih
  | removeR st id hr ih => exact ih

/-- C1: for every plot and room size, `getPositionForDirection` returns
exactly the coordinate pair of the direction table for each of the 8
recognized direction strings, and the origin for every unrecognized
direction; no clamping occurs, so an oversized room yields negative
coordinates (concrete conjuncts include the southwest example (15, 38)
and a negative-coordinate instance). -/
theorem C1_place_table (plot : PlotDimensions) (roomSize : Size) :
    getPositionForDirection "northeast" plot roomSize = { x := 0, y := 0 } ∧
    getPositionForDirection "north" plot roomSize =
      { x := Int.fdiv plot.width 4, y := 0 } ∧
    getPositionForDirection "northwest" plot roomSize =
      { x := plot.width - roomSize.width, y := 0 } ∧
    getPositionForDirection "east" plot roomSize =
      { x := 0, y := Int.fdiv plot.length 4 } ∧
    getPositionForDirection "southeast" plot roomSize =
      { x := 0, y := plot.length - roomSize.length } ∧
    getPositionForDirection "south" plot roomSize =
      { x := Int.fdiv plot.width 4, y := plot.length - roomSize.length } ∧
    getPositionForDirection "southwest" plot roomSize =
      { x := plot.width - roomSize.width, y := plot.length - roomSize.length } ∧
    getPositionForDirection "west" plot roomSize =
      { x := plot.width - roomSize.width, y := Int.fdiv plot.length 4 } ∧
    getPositionForDirection "southwest" { length := 50, width := 30 }
      { length := 12, width := 15 } = { x := 15, y := 38 } ∧
    getPositionForDirection "southwest" { length := 10, width := 10 }
      { length := 12, width := 15 } = { x := -5, y := -2 } ∧
    (∀ direction : String,
      direction ∉ ["north", "northeast", "east", "southeast", "south",
        "southwest", "west", "northwest"] →
      getPositionForDirection direction plot roomSize = { x := 0, y := 0 }) := by
  refine ⟨rfl, rfl, rfl, rfl, rfl, rfl, rfl, rfl, by decide, by decide, ?_⟩
  intro d hd
  simp only [List.mem_cons, List.not_mem_nil, or_false, not_or] at hd
  obtain ⟨h1, h2, h3, h4, h5, h6, h7, h8⟩ := hd
  simp [getPositionForDirection, h1, h2, h3, h4, h5, h6, h7, h8]

/-- Witness for C1: an unrecognized direction string maps to the origin. -/
theorem C1_place_table_witness :
    getPositionForDirection "center" { length := 50, width := 30 }
      { length := 12, width := 15 } = { x := 0, y := 0 } :=
  (C1_place_table { length := 50, width := 30 }
    { length := 12, width := 15 }).2.2.2.2.2.2.2.2.2.2 "center" (by decide)

/-- C5: `removeRoom id` deletes exactly the rooms whose id starts with the
given id string and keeps every other room (as an order-preserving
sublist); removing id 1 from a registry holding ids 1 and 1-washroom
removes both. -/
theorem C5_removeRoom_prefix (id : String) (rooms : List Room) :
    (∀ r : Room, r ∈ removeRoom id rooms ↔
      r ∈ rooms ∧ ¬ strStartsWith r.id id = true) ∧
    List.Sublist (removeRoom id rooms) rooms ∧
    removeRoom "1"
      [{ id := "1", type := "master_bedroom", size := ⟨12, 15⟩, position := ⟨15, 38⟩,
         direction := "southwest", preferences := none },
       { id := "1-washroom", type := "bathroom", size := ⟨5, 5⟩, position := ⟨30, 38⟩,
         direction := "northwest", preferences := none }] = [] := by
  refine ⟨?_, ?_, by decide⟩
  · intro r
    simp [removeRoom, List.mem_filter]
  · exact List.filter_sublist _

/-- C6: for each of the nine catalog types, `handleRoomTypeChange` resets
the draft to that type, the rule's default size, and the rule's declared
preference flags, with absent flags defaulted to washroom false, open
false, inside true, combined false. -/
theorem C6_selectRoomType_defaults :
    handleRoomTypeChange "master_bedroom" = some
      { type := "master_bedroom", length := 12, width := 15,
        preferences := ⟨true, false, true, false⟩ } ∧
    handleRoomTypeChange "bedroom" = some
      { type := "bedroom", length := 10, width := 12,
        preferences := ⟨false, false, true, false⟩ } ∧
    handleRoomTypeChange "kitchen" = some
      { type := "kitchen", length := 8, width := 10,
        preferences := ⟨false, false, true, false⟩ } ∧
    handleRoomTypeChange "pooja_room" = some
      { type := "pooja_room", length := 6, width := 6,
        preferences := ⟨false, false, true, false⟩ } ∧
    handleRoomTypeChange "bathroom" = some
      { type := "bathroom", length := 5, width := 5,
        preferences := ⟨false, false, true, false⟩ } ∧
    handleRoomTypeChange "living_room" = some
      { type := "living_room", length := 15, width := 12,
        preferences := ⟨false, false, true, false⟩ } ∧
    handleRoomTypeChange "dining_room" = some
      { type := "dining_room", length := 10, width := 12,
        preferences := ⟨false, false, true, false⟩ } ∧
    handleRoomTypeChange "staircase" = some
      { type := "staircase", length := 6, width := 10,
        preferences := ⟨false, false, true, false⟩ } ∧
    handleRoomTypeChange "common_area" = some
      { type := "common_area", length := 20, width := 15,
        preferences := ⟨false, false, true, false⟩ } :=
  ⟨rfl, rfl, rfl, rfl, rfl, rfl, rfl, rfl, rfl⟩

/-- C7: catalog lookup yields a rule exactly on the nine fixed keys and
fails (returns none, the model of UnknownRoomType) on every other type
identifier. -/
theorem C7_catalog_lookup :
    (∀ type : String,
      type ∉ ["master_bedroom", "bedroom", "kitchen", "pooja_room", "bathroom",
        "living_room", "dining_room", "staircase", "common_area"] →
      VASTU_RULES type = none) ∧
    (∀ type ∈ ["master_bedroom", "bedroom", "kitchen", "pooja_room", "bathroom",
        "living_room", "dining_room", "staircase", "common_area"],
      (VASTU_RULES type).isSome = true) := by
  constructor
  · intro t ht
    simp only [List.mem_cons, List.not_mem_nil, or_false, not_or] at ht
    obtain ⟨h1, h2, h3, h4, h5, h6, h7, h8, h9⟩ := ht
    simp [VASTU_RULES, h1, h2, h3, h4, h5, h6, h7, h8, h9]
  · decide

/-- Witness for C7: an unknown key misses, a known key hits. -/
theorem C7_catalog_lookup_witness :
    VASTU_RULES "garage" = none ∧ (VASTU_RULES "kitchen").isSome = true :=
  ⟨C7_catalog_lookup.1 "garage" (by decide),
   C7_catalog_lookup.2 "kitchen" (by decide)⟩

/-- C8: `setPlotDimensions` replaces the plot record wholesale and changes
nothing else; the last conjunct checks a placed room keeps its position
and size even when the new plot no longer contains it. -/
theorem C8_setPlotDimensions_frame (next : PlotDimensions) (st : State) :
    (setPlotDimensions next st).plotDimensions = next ∧
    (setPlotDimensions next st).rooms = st.rooms ∧
    (setPlotDimensions next st).newRoom = st.newRoom ∧
    (setPlotDimensions { length := 10, width := 10 }
      { plotDimensions := { length := 50, width := 30 }
        rooms := [{ id := "1", type := "master_bedroom", size := ⟨12, 15⟩,
                    position := ⟨15, 38⟩, direction := "southwest", preferences := none }]
        newRoom := initialState.newRoom }).rooms =
      [{ id := "1", type := "master_bedroom", size := ⟨12, 15⟩, position := ⟨15, 38⟩,
         direction := "southwest", preferences := none }] :=
  ⟨rfl, rfl, rfl, rfl⟩

/-- C10: the initial draft is a master_bedroom of size 12 by 15 with the
washroom flag set, so the first Add Room click on a fresh registry
appends the master_bedroom with id 1 and a bathroom with id 1-washroom. -/
theorem C10_initial_draft_add :
    initialState.newRoom =
      { type := "master_bedroom", length := 12, width := 15,
        preferences := { hasAttachedWashroom := true, isOpen := false,
                         isInside := true, isCombined := false } } ∧
    addRoomState initialState = some
      { plotDimensions := { length := 50, width := 30 }
        rooms := [
          { id := "1", type := "master_bedroom", size := ⟨12, 15⟩, position := ⟨15, 38⟩,
            direction := "southwest",
            preferences := some { hasAttachedWashroom := some true, isOpen := some false,
                                  isInside := some true, isCombined := some false } },
          { id := "1-washroom", type := "bathroom", size := ⟨5, 5⟩, position := ⟨30, 38⟩,
            direction := "northwest", preferences := none }]
        newRoom := initialState.newRoom } :=
  ⟨rfl, by decide⟩

/-- C2: when the combined-living-room branch does not apply and the draft
carries the washroom flag, `addRoom` appends exactly two rooms to the
existing sequence: the drafted room, whose id is the stringified room
count plus one, and a bathroom with the washroom-suffixed id, direction
northwest, the bathroom rule's default size, and position one draft-width
east of the parent. -/
theorem C2_washroom_branch (plot : PlotDimensions) (d : NewRoom) (rooms : List Room)
    (rule : VastuRule) (hv : VASTU_RULES d.type = some rule)
    (hnc : ¬ (d.type = "living_room" ∧ d.preferences.isCombined = true))
    (hw : d.preferences.hasAttachedWashroom = true) :
    addRoom plot d rooms = some (rooms ++
      [{ id := natToString (rooms.length + 1)
         type := d.type
         size := { length := d.length, width := d.width }
         position := getPositionForDirection rule.direction plot
           { length := d.length, width := d.width }
         direction := rule.direction
         preferences := some (draftToRoomPrefs d.preferences) },
       { id := natToString (rooms.length + 1) ++ "-washroom"
         type := "bathroom"
         size := bathroom_rule.defaultSize
         position :=
           { x := (getPositionForDirection rule.direction plot
               { length := d.length, width := d.width }).x + d.width
             y := (getPositionForDirection rule.direction plot
               { length := d.length, width := d.width }).y }
         direction := "northwest"
         preferences := none }]) := by
  have hb : (d.type == "living_room" && d.preferences.isCombined) = false := by
    by_cases h1 : d.type = "living_room"
    · have h2 : d.preferences.isCombined = false := by
        cases hic : d.preferences.isCombined
        · rfl
        · exact absurd ⟨h1, hic⟩ hnc
      simp [h2]
    · simp [h1]
  simp [addRoom, hv, hb, hw]

/-- Witness for C2: the initial master_bedroom draft on an empty registry. -/
theorem C2_washroom_branch_witness :
    addRoom { length := 50, width := 30 }
      { type := "master_bedroom", length := 12, width := 15,
        preferences := ⟨true, false, true, false⟩ } [] = some
      [{ id := "1", type := "master_bedroom", size := ⟨12, 15⟩, position := ⟨15, 38⟩,
         direction := "southwest",
         preferences := some ⟨some true, some false, some true, some false⟩ },
       { id := "1-washroom", type := "bathroom", size := ⟨5, 5⟩, position := ⟨30, 38⟩,
         direction := "northwest", preferences := none }] := by
  rw [C2_washroom_branch { length := 50, width := 30 }
    { type := "master_bedroom", length := 12, width := 15,
      preferences := ⟨true, false, true, false⟩ } [] master_bedroom_rule
    (by decide) (by decide) rfl]
  decide

/-- C3: a living_room draft with the combined flag set makes `addRoom`
append exactly one common_area room with direction north, the common_area
default size 20 by 15, and preferences carrying only the combined flag;
neither the draft size nor the draft position influences the appended
room (the right-hand side mentions neither), and no washroom is appended
regardless of the washroom flag. -/
theorem C3_combined_branch (plot : PlotDimensions) (d : NewRoom) (rooms : List Room)
    (hty : d.type = "living_room") (hc : d.preferences.isCombined = true) :
    addRoom plot d rooms = some (rooms ++
      [{ id := natToString (rooms.length + 1)
         type := "common_area"
         size := common_area_rule.defaultSize
         position := { x := Int.fdiv plot.width 4, y := 0 }
         direction := "north"
         preferences := some { hasAttachedWashroom := none, isOpen := none,
                               isInside := none, isCombined := some true } }]) ∧
    common_area_rule.defaultSize = { length := 20, width := 15 } := by
  constructor
  · have hv : VASTU_RULES d.type = some living_room_rule := by
      rw [hty]
      rfl
    have hb : (d.type == "living_room" && d.preferences.isCombined) = true := by
      rw [hty, hc]
      rfl
    simp [addRoom, hv, hb, living_room_rule, getPositionForDirection]
  · rfl

/-- Witness for C3: a combined living_room draft on an empty registry,
with a draft size deliberately different from the common_area default. -/
theorem C3_combined_branch_witness :
    addRoom { length := 50, width := 30 }
      { type := "living_room", length := 9, width := 8,
        preferences := ⟨false, false, true, true⟩ } [] = some
      [{ id := "1", type := "common_area", size := ⟨20, 15⟩, position := ⟨7, 0⟩,
         direction := "north",
         preferences := some ⟨none, none, none, some true⟩ }] := by
  rw [(C3_combined_branch { length := 50, width := 30 }
    { type := "living_room", length := 9, width := 8,
      preferences := ⟨false, false, true, true⟩ } [] rfl rfl).1]
  decide

/-- C9: in every UI-reachable state whose draft is a dining_room with the
combined flag set, `addRoom` appends exactly one ordinary dining_room
room, placed by the placement function from the dining_room rule's
direction and carrying the combined flag; the common_area substitution
does not fire for dining_room. -/
theorem C9_dining_combined_single (st : State) (h : Reachable st)
    (hty : st.newRoom.type = "dining_room")
    (hc : st.newRoom.preferences.isCombined = true) :
    addRoom st.plotDimensions st.newRoom st.rooms = some (st.rooms ++
      [{ id := natToString (st.rooms.length + 1)
         type := "dining_room"
         size := { length := st.newRoom.length, width := st.newRoom.width }
         position := getPositionForDirection dining_room_rule.direction st.plotDimensions
           { length := st.newRoom.length, width := st.newRoom.width }
         direction := dining_room_rule.direction
         preferences := some { hasAttachedWashroom := some false
                               isOpen := some st.newRoom.preferences.isOpen
                               isInside := some st.newRoom.preferences.isInside
                               isCombined := some true } }]) := by
  have hw := dining_no_washroom st h hty
  have hv : VASTU_RULES "dining_room" = some dining_room_rule := rfl
  simp [addRoom, hv, hw, hty, hc, draftToRoomPrefs]

/-- Witness for C9: select dining_room, tick the combined checkbox, add. -/
theorem C9_dining_combined_single_witness :
    addRoom diningCombinedState.plotDimensions diningCombinedState.newRoom
      diningCombinedState.rooms = some
      [{ id := "1", type := "dining_room", size := ⟨10, 12⟩, position := ⟨0, 12⟩,
         direction := "east",
         preferences := some ⟨some false, some false, some true, some true⟩ }] := by
  have h1 : Reachable diningDraftState :=
    Reachable.selectType initialState _ "dining_room" Reachable.init (by decide) (by decide)
  have h2 : Reachable diningCombinedState :=
    Reachable.toggleCombined diningDraftState true h1 (Or.inr rfl)
  rw [C9_dining_combined_single _ h2 rfl rfl]
  decide

/-- C4 counterexample: a state reachable through untick washroom, add, add,
remove room 1, change the draft length, add, holds two distinct parent
rooms that share id 2 — id uniqueness fails once a removal is involved,
exactly as the count-based id assignment predicts. -/
theorem C4_id_collision_counterexample :
    Reachable collisionState ∧
    collisionRoomA ∈ collisionState.rooms ∧
    collisionRoomB ∈ collisionState.rooms ∧
    collisionRoomA.id = collisionRoomB.id ∧
    collisionRoomA ≠ collisionRoomB ∧
    ¬ collisionState.rooms.Pairwise (fun a b => a.id ≠ b.id) := by
  refine ⟨?_, by decide, by decide, by decide, by decide, ?_⟩
  · have h1 : Reachable c4StateA :=
      Reachable.toggleWashroom initialState false Reachable.init
        (by unfold washroomCheckboxShown; decide)
    have h2 : Reachable c4StateB := Reachable.addR _ _ h1 (by decide)
    have h3 : Reachable c4StateC := Reachable.addR _ _ h2 (by decide)
    have h4 : Reachable c4StateD := Reachable.removeR c4StateC "1" h3
    have h5 : Reachable c4StateE := Reachable.setDraftLength c4StateD 13 h4
    exact Reachable.addR _ _ h5 (by decide)
  · intro hp
    exact (List.pairwise_cons.1 hp).1 collisionRoomB (by decide) (by decide)

/-- C4 amended: in every registry state reachable by add operations alone
(no removals), the room ids are pairwise distinct — a parent and its
washroom dependent carry distinct, prefix-related ids; id uniqueness can
only break after a removal, as the counterexample shows. -/
theorem C4_add_only_unique_ids (steps : List (PlotDimensions × NewRoom))
    (rooms : List Room) (h : runAdds steps [] = some rooms) :
    rooms.Pairwise fun a b => a.id ≠ b.id :=
  (runAdds_goodIds steps [] rooms goodIds_nil h).2

/-- Witness for the amended C4: one add of the initial washroom-bearing
draft yields rooms with ids 1 and 1-washroom, pairwise distinct. -/
theorem C4_add_only_unique_ids_witness :
    List.Pairwise (fun a b : Room => a.id ≠ b.id)
      [{ id := "1", type := "master_bedroom", size := ⟨12, 15⟩, position := ⟨15, 38⟩,
         direction := "southwest",
         preferences := some ⟨some true, some false, some true, some false⟩ },
       { id := "1-washroom", type := "bathroom", size := ⟨5, 5⟩, position := ⟨30, 38⟩,
         direction := "northwest", preferences := none }] :=
  C4_add_only_unique_ids
    [({ length := 50, width := 30 },
      { type := "master_bedroom", length := 12, width := 15,
        preferences := ⟨true, false, true, false⟩ })] _ (by decide)
